import Mathlib

/-!
Verification development for the telemetry normalization pipeline of the
mini_driver repository: the function _parse_flight_csv in
app/routes/flights.py, which turns an uploaded flight CSV into seven
chart-ready numeric series (time, altitude, net_accel, x, y, z, temp).

Numeric model. pandas/numpy compute in IEEE-754 double precision. We embed
the value domain as an inductive type over exact rationals together with the
three special values NaN, +Infinity and -Infinity, and translate each
arithmetic operation the pipeline uses with its IEEE special-case rules
(division by zero, infinity propagation, NaN propagation, negative base to a
fractional power giving NaN, and so on). Idealizations, stated once here:
finite arithmetic is exact rational arithmetic (double rounding error is not
modelled), there is no signed zero, and decimal rounding is exact
round-half-to-even on the rational value. The one float operation whose
finite result is not rational - pow with a fractional exponent on a positive
base other than 0 and 1 - is passed in as a parameter (powA below) and the
theorems are quantified over it; the IEEE-exact cases pow(0,e)=0, pow(1,e)=1,
pow(negative,e)=NaN, pow(+-inf,e)=+inf for fractional e in (0,1) are fixed in
the embedding itself.

Input model. pd.read_csv is third-party code; we embed the uploaded CSV text
at the token level: a header row of column-name strings and data rows of
cells, each cell already classified the way the pandas C parser classifies
it - a numeric value (numeric literals, inf/nan literals, booleans as 0/1),
an empty field (missing value, coerced to NaN), or non-numeric text. The
modelled read_csv behaviours: blank lines are skipped; a data row with more
fields than the header raises a parser error (the uniform one-extra-column
index-inference case is outside the model, and success-path theorems carry
the corresponding row-width hypothesis); a shorter row is padded with
missing values on the right; a column containing a text cell has object
dtype, on which the pipeline's arithmetic (mean, **, -, or math.isnan in its
output loop) raises TypeError. read_csv mangles exact raw duplicates in the
header to unique names; that mangling is outside the model, so headers whose
raw names already repeat are covered only by theorems carrying a Nodup
hypothesis. The strip assignment df.columns = [c.strip() ...] can then turn
two distinct raw names into the same label (e.g. "x" and " x"): when a
required label is duplicated this way, df[name] is a two-column DataFrame
and the pipeline raises (the single-column assignments to altitude_ft/mag,
the duplicate-axis alignment, or the output loop iterating column labels),
never reaching a result - the model surfaces this as a distinct error,
checked between schema validation (which is unaffected, being a pure
membership test) and the dtype check. An input with a blank header line
models a column-free file, on which read_csv raises EmptyDataError.
-/

namespace MiniDriver

/-- IEEE-754 style scalar value: an exact finite rational, NaN, +Infinity or
-Infinity. -/
inductive Value where
  | finite (q : ℚ)
  | nan
  | inf
  | neginf
deriving DecidableEq

namespace Value

/-- math.isnan. -/
def isNaN : Value → Bool
  | nan => true
  | _ => false

/-- Finiteness test (not NaN and not an infinity). -/
def isFinite : Value → Bool
  | finite _ => true
  | _ => false

/-- IEEE negation. -/
def neg : Value → Value
  | finite q => finite (-q)
  | nan => nan
  | inf => neginf
  | neginf => inf

/-- IEEE addition on the embedded domain. -/
def add : Value → Value → Value
  | nan, _ => nan
  | _, nan => nan
  | inf, neginf => nan
  | neginf, inf => nan
  | inf, _ => inf
  | _, inf => inf
  | neginf, _ => neginf
  | _, neginf => neginf
  | finite a, finite b => finite (a + b)

/-- IEEE subtraction, as addition of the negation. -/
def sub (a b : Value) : Value := add a (neg b)

/-- IEEE multiplication on the embedded domain. -/
def mul : Value → Value → Value
  | nan, _ => nan
  | _, nan => nan
  | inf, inf => inf
  | inf, neginf => neginf
  | neginf, inf => neginf
  | neginf, neginf => inf
  | inf, finite b => if 0 < b then inf else if b < 0 then neginf else nan
  | finite a, inf => if 0 < a then inf else if a < 0 then neginf else nan
  | neginf, finite b => if 0 < b then neginf else if b < 0 then inf else nan
  | finite a, neginf => if 0 < a then neginf else if a < 0 then inf else nan
  | finite a, finite b => finite (a * b)

/-- IEEE division on the embedded domain (no signed zero: a nonzero finite
value divided by zero takes the sign of the numerator). -/
def div : Value → Value → Value
  | nan, _ => nan
  | _, nan => nan
  | finite a, finite b =>
      if b = 0 then (if 0 < a then inf else if a < 0 then neginf else nan)
      else finite (a / b)
  | finite _, inf => finite 0
  | finite _, neginf => finite 0
  | inf, finite b => if b < 0 then neginf else inf
  | neginf, finite b => if b < 0 then inf else neginf
  | inf, inf => nan
  | inf, neginf => nan
  | neginf, inf => nan
  | neginf, neginf => nan

/-- Elementwise square, modelling the numpy expression series ** 2. -/
def sq : Value → Value
  | finite q => finite (q * q)
  | nan => nan
  | inf => inf
  | neginf => inf

/-- Power with a fixed fractional exponent e in (0,1), modelling the numpy
expression series ** e (e is 0.1903 or 0.5 in the pipeline). The IEEE-exact
cases are fixed: pow(0,e)=0, pow(1,e)=1, a finite negative base gives NaN,
pow(+inf,e)=pow(-inf,e)=+inf, NaN propagates. For a finite positive base
other than 0 and 1 the double result is some rational approximation of the
real power; it is supplied by the parameter powA (exponent first, base
second), over which every theorem below is quantified. -/
def fracPow (powA : ℚ → ℚ → ℚ) (e : ℚ) : Value → Value
  | nan => nan
  | inf => inf
  | neginf => inf
  | finite b =>
      if b = 0 then finite 0
      else if b = 1 then finite 1
      else if b < 0 then nan
      else finite (powA e b)

end Value

/-- pandas Series.mean with the default skipna=True: the mean of the non-NaN
entries, or NaN when there is no non-NaN entry. -/
def seriesMean (l : List Value) : Value :=
  let vs := l.filter (fun v => !v.isNaN)
  if vs.isEmpty then Value.nan
  else (vs.foldl Value.add (Value.finite 0)).div (Value.finite (vs.length : ℚ))

/-- Round a rational to the nearest integer, ties to even (the rounding of
Python's built-in round). -/
def roundHalfEven (q : ℚ) : ℤ :=
  let f := ⌊q⌋
  let r := q - (f : ℚ)
  if r < 1 / 2 then f
  else if 1 / 2 < r then f + 1
  else if f % 2 = 0 then f else f + 1

/-- Python round(v, 4): finite values are rounded to 4 decimal places,
infinities and NaN are returned unchanged. -/
def round4 : Value → Value
  | Value.finite q => Value.finite ((roundHalfEven (q * 10000) : ℚ) / 10000)
  | v => v

/-- One element of the pipeline's output loop:
round(v, 4) if not math.isnan(v) else 0.0. -/
def sanitize (v : Value) : Value :=
  if v.isNaN then Value.finite 0 else round4 v

/-- The pipeline's to_list helper applied to a whole series. -/
def to_list (l : List Value) : List Value := l.map sanitize

/-- One CSV field as the pandas C parser classifies it: a cell parsed as a
number (numeric literals, inf and nan literals, booleans as 0 and 1), an
empty field (missing value), or non-numeric text. -/
inductive Cell where
  | val (v : Value)
  | empty
  | text (s : String)
deriving DecidableEq

/-- Numeric value of a cell: an empty field is a missing value (NaN). A text
cell is never read as a number by the pipeline (its column fails the dtype
check first); it is mapped to NaN for totality. -/
def Cell.toValue : Cell → Value
  | .val v => v
  | .empty => Value.nan
  | .text _ => Value.nan

/-- True when the cell does not force object dtype on its column. -/
def Cell.numericCell : Cell → Bool
  | .text _ => false
  | _ => true

/-- The uploaded CSV text after tokenization: the header line's fields and
each subsequent line's fields, in file order. -/
structure RawTable where
  header : List String
  rows : List (List Cell)
deriving DecidableEq

/-- Blank line test: pandas skip_blank_lines drops lines with no content
(which tokenize to no field or to a single empty field). -/
def blankRow : List Cell → Bool
  | [] => true
  | [Cell.empty] => true
  | _ => false

/-- Blank header test: a header line with no content means the file has no
columns at all, on which read_csv raises EmptyDataError. -/
def blankHeader : List String → Bool
  | [] => true
  | [""] => true
  | _ => false

/-- Data rows of the input: the non-blank lines below the header. -/
def dataRows (t : RawTable) : List (List Cell) :=
  t.rows.filter (fun r => !blankRow r)

/-- Number of data rows of the input. -/
def dataRowCount (t : RawTable) : Nat := (dataRows t).length

/-- True when no data row has more fields than the header, so the pandas C
parser accepts every row (a longer row raises ParserError). -/
def fitsHeader (t : RawTable) : Bool :=
  (dataRows t).all (fun r => r.length ≤ t.header.length)

/-- Drop leading whitespace characters from a character list. -/
def dropLeadingWs : List Char → List Char
  | [] => []
  | c :: cs => if c.isWhitespace then dropLeadingWs cs else c :: cs

/-- Python str.strip(): remove leading and trailing whitespace from a
column name. -/
def stripName (s : String) : String :=
  ⟨(dropLeadingWs (dropLeadingWs s.data).reverse).reverse⟩

/-- A parsed dataframe: column names and rows, every row padded to the
column count. -/
structure Frame where
  cols : List String
  rows : List (List Cell)
deriving DecidableEq

/-- Pad a short row on the right with missing values, as read_csv does. -/
def padRow (width : Nat) (r : List Cell) : List Cell :=
  r ++ List.replicate (width - r.length) Cell.empty

/-- The dataframe the pipeline works on: read_csv of the table followed by
the header-stripping line df.columns = [c.strip() for c in df.columns]. -/
def frameOf (t : RawTable) : Frame :=
  ⟨t.header.map stripName, (dataRows t).map (padRow t.header.length)⟩

/-- Name of the time column. -/
def timeCol : String := "Time (ms)"

/-- The six required column names, in source order. -/
def requiredList : List String := [timeCol, "x", "y", "z", "Kpa", "F"]

/-- RequiredColumns as a set, as the source builds it. -/
def requiredCols : Finset String := requiredList.toFinset

/-- The set difference required - set(df.columns) computed on the stripped
header. -/
def missingOf (t : RawTable) : Finset String :=
  requiredCols.filter (fun c => c ∉ (frameOf t).cols)

/-- Value of the named column in one (padded) row: df[name] reads the field
at the position of the name in the column list. The transform only reaches
this on names that occur exactly once in the stripped header (it fails with
the duplicate-label error first otherwise), so the first index is the unique
index and df[name] is a single column. -/
def cellVal (f : Frame) (nm : String) (r : List Cell) : Value :=
  (r.getD ((f.cols.findIdx? (fun c => c = nm)).getD 0) Cell.empty).toValue

/-- The named column as a series of values, aligned with the rows. -/
def colVals (f : Frame) (nm : String) : List Value :=
  f.rows.map (cellVal f nm)

/-- Cells of the named column, used for the dtype test. -/
def colCells (f : Frame) (nm : String) : List Cell :=
  f.rows.map (fun r =>
    r.getD ((f.cols.findIdx? (fun c => c = nm)).getD 0) Cell.empty)

/-- True when every cell of the column is numeric or empty, i.e. the column
has a numeric dtype. A column holding any text cell has object dtype and the
pipeline's arithmetic on it (mean, ** on Kpa/x/y/z, or math.isnan in the
output loop for Time (ms) and F) raises TypeError. -/
def numericCol (l : List Cell) : Bool := l.all Cell.numericCell

/-- True when all six required columns have numeric dtype, so none of the
pipeline's arithmetic raises TypeError. -/
def requiredNumeric (f : Frame) : Bool :=
  requiredList.all (fun nm => numericCol (colCells f nm))

/-- True when no required column name is duplicated in the stripped header.
Raw exact duplicates are mangled to unique names by read_csv, but the strip
assignment can make two distinct raw names equal (e.g. "x" and " x"); a
duplicated required label makes df[name] a two-column DataFrame and the
pipeline raises before producing a result, regardless of row count. -/
def requiredUnique (f : Frame) : Bool :=
  requiredList.all (fun nm => f.cols.count nm ≤ 1)

/-- The failure outcomes one transform call can produce. missingColumns
models ValueError(f-string of "CSV missing columns: " and the missing set) -
the set itself is carried, since Python displays a set in unspecified order;
emptyData models pandas.errors.EmptyDataError on input with no columns;
ragged models pandas.errors.ParserError on a data row with more fields than
the header; typeError models the TypeError numpy raises when the pipeline's
arithmetic hits an object-dtype required column; duplicateLabel collapses
the exceptions raised when a required column label is duplicated after
stripping (a ValueError at the single-column altitude_ft/mag assignment or
at duplicate-axis alignment for Kpa/x/y/z, a TypeError in the output loop
for Time (ms)/F, whose column labels are iterated instead of values) - the
caller catches every exception alike, so the Python exception class is not
observable. When a column is both duplicated and object-dtype the class of
the exception depends on source line order; the model reports the
duplicate, and theorems asserting a specific failure kind are scoped to
inputs where only one condition holds. -/
inductive Err where
  | missingColumns (missing : Finset String)
  | emptyData
  | ragged
  | typeError
  | duplicateLabel
deriving DecidableEq

/-- The success payload: the seven chart series, in the order the source
builds its result dict. -/
structure ChartData where
  time : List Value
  altitude : List Value
  net_accel : List Value
  x : List Value
  y : List Value
  z : List Value
  temp : List Value
deriving DecidableEq

/-- The seven output sequences as a list, for stating properties of every
output value at once. -/
def ChartData.allLists (o : ChartData) : List (List Value) :=
  [o.time, o.altitude, o.net_accel, o.x, o.y, o.z, o.temp]

/-- One row's altitude:
44330 * (1 - (kpa / baseline_kpa) ** 0.1903) * 3.281. -/
def altFormula (powA : ℚ → ℚ → ℚ) (baseline k : Value) : Value :=
  ((Value.finite 44330).mul
      ((Value.finite 1).sub
        (Value.fracPow powA (1903 / 10000) (k.div baseline)))).mul
    (Value.finite (3281 / 1000))

/-- One row's acceleration magnitude:
(x ** 2 + y ** 2 + z ** 2) ** 0.5. -/
def magOf (powA : ℚ → ℚ → ℚ) (x y z : Value) : Value :=
  Value.fracPow powA (1 / 2) ((x.sq.add y.sq).add z.sq)

/-- One row's net acceleration: mag - 1.0. -/
def netOf (powA : ℚ → ℚ → ℚ) (x y z : Value) : Value :=
  (magOf powA x y z).sub (Value.finite 1)

/-- The derived-series computation on a validated frame: baseline pressure
as the mean of the first 10 Kpa values (Series.head(10).mean(), skipna),
altitude and net acceleration per row, and every series pushed through
to_list. -/
def computeChart (powA : ℚ → ℚ → ℚ) (f : Frame) : ChartData :=
  let kpa := colVals f "Kpa"
  let baseline := seriesMean (kpa.take 10)
  { time := to_list (colVals f timeCol)
    altitude := to_list (kpa.map (altFormula powA baseline))
    net_accel := to_list (f.rows.map (fun r =>
      netOf powA (cellVal f "x" r) (cellVal f "y" r) (cellVal f "z" r)))
    x := to_list (colVals f "x")
    y := to_list (colVals f "y")
    z := to_list (colVals f "z")
    temp := to_list (colVals f "F") }

/-- The transform _parse_flight_csv: read_csv (EmptyDataError on a
column-free input, ParserError on a row wider than the header), strip the
header names, validate the required-column schema, and - unless a required
column label duplicated by the strip or an object-dtype required column
makes the arithmetic raise - return the computed chart series. -/
def parseFlightCsv (powA : ℚ → ℚ → ℚ) (t : RawTable) :
    Except Err ChartData :=
  if blankHeader t.header then .error .emptyData
  else if !fitsHeader t then .error .ragged
  else if missingOf t ≠ ∅ then .error (.missingColumns (missingOf t))
  else if !requiredUnique (frameOf t) then .error .duplicateLabel
  else if !requiredNumeric (frameOf t) then .error .typeError
  else .ok (computeChart powA (frameOf t))

/-- Arithmetic mean of a list of rationals, following the spec's wording
"the arithmetic mean of kpa over the first min(10, row_count) rows"; stated
for comparison with the source's skipna mean. -/
def specArithmeticMean (qs : List ℚ) : ℚ := qs.sum / qs.length

/-- Predicate for the lower bound of C10: the value is at least -1.0 in the
extended order (+Infinity qualifies, NaN and -Infinity do not). -/
def Value.geNegOne : Value → Bool
  | Value.finite q => decide (-1 ≤ q)
  | Value.inf => true
  | Value.nan => false
  | Value.neginf => false

/-- Classification used for the net-acceleration lower bound: the value is
a nonnegative finite number, NaN or +Infinity - exactly the values the
squared-sum chain can produce; -Infinity is excluded. -/
def Value.nonnegClass : Value → Prop
  | Value.finite q => 0 ≤ q
  | Value.nan => True
  | Value.inf => True
  | Value.neginf => False

/-- A concrete instantiation of the abstract positive-base power
approximation, used in closed witnesses and counterexamples (each of which
only exercises inputs on which the result does not depend on it). -/
def powId : ℚ → ℚ → ℚ := fun _ b => b

/-- Shorthand for a cell holding a finite number. -/
def fq (q : ℚ) : Cell := Cell.val (Value.finite q)

/-- Input whose first two Kpa values are -1 and 1, so the baseline pressure
is 0 and both altitude results are -Infinity. -/
def tblInfAlt : RawTable :=
  ⟨["Time (ms)", "x", "y", "z", "Kpa", "F"],
   [[fq 0, fq 0, fq 0, fq 1, fq (-1), fq 70],
    [fq 1, fq 0, fq 0, fq 1, fq 1, fq 70]]⟩

/-- Plain one-row valid input. -/
def tblPlain : RawTable :=
  ⟨["Time (ms)", "x", "y", "z", "Kpa", "F"],
   [[fq 5, fq 0, fq 0, fq 1, fq 100, fq 70]]⟩

/-- Input whose header lacks the z column. -/
def tblMissingZ : RawTable :=
  ⟨["Time (ms)", "x", "y", "Kpa", "F"],
   [[fq 5, fq 0, fq 0, fq 100, fq 70]]⟩

/-- Input with baseline pressure 0 from Kpa values -2 and 2. -/
def tblZeroBase : RawTable :=
  ⟨["Time (ms)", "x", "y", "z", "Kpa", "F"],
   [[fq 0, fq 0, fq 0, fq 1, fq (-2), fq 70],
    [fq 1, fq 0, fq 0, fq 1, fq 2, fq 70]]⟩

/-- Input with baseline pressure 0 from a single zero Kpa value. -/
def tblZeroKpa : RawTable :=
  ⟨["Time (ms)", "x", "y", "z", "Kpa", "F"],
   [[fq 0, fq 0, fq 0, fq 1, fq 0, fq 70]]⟩

/-- Input whose single data row reads the sea-level pressure 101.325 kPa,
which is then also the baseline. -/
def tblSeaLevel : RawTable :=
  ⟨["Time (ms)", "x", "y", "z", "Kpa", "F"],
   [[fq 0, fq 0, fq 0, fq 1, fq (4053 / 40), fq 70]]⟩

/-- Input holding a resting accelerometer reading x=0, y=0, z=1. -/
def tblAtRest : RawTable :=
  ⟨["Time (ms)", "x", "y", "z", "Kpa", "F"],
   [[fq 0, fq 0, fq 0, fq 1, fq 100, fq 70]]⟩

/-- Two-row valid input for the length invariant. -/
def tblTwoRows : RawTable :=
  ⟨["Time (ms)", "x", "y", "z", "Kpa", "F"],
   [[fq 0, fq 0, fq 0, fq 1, fq 100, fq 70],
    [fq 1, fq 0, fq 0, fq 1, fq 100, fq 71]]⟩

/-- Input carrying the raw value 3.14159265 in the x column. -/
def tblPi : RawTable :=
  ⟨["Time (ms)", "x", "y", "z", "Kpa", "F"],
   [[fq 0, fq (314159265 / 100000000), fq 0, fq 1, fq 100, fq 70]]⟩

/-- One-row input for the net-acceleration lower bound. -/
def tblBound : RawTable :=
  ⟨["Time (ms)", "x", "y", "z", "Kpa", "F"],
   [[fq 0, fq 3, fq 0, fq 4, fq 100, fq 70]]⟩

/-- Input whose header lacks the z column and whose second data row is wider
than the header, so the CSV reader rejects it before schema validation. -/
def tblRaggedMissing : RawTable :=
  ⟨["Time (ms)", "x", "y", "Kpa", "F"],
   [[fq 1, fq 2, fq 3, fq 4, fq 5],
    [fq 1, fq 2, fq 3, fq 4, fq 5, fq 6]]⟩

theorem parse_ok_inv (powA : ℚ → ℚ → ℚ) (t : RawTable) (out : ChartData)
    (h : parseFlightCsv powA t = .ok out) :
    blankHeader t.header = false ∧ fitsHeader t = true ∧ missingOf t = ∅ ∧
      requiredUnique (frameOf t) = true ∧
      requiredNumeric (frameOf t) = true ∧
      out = computeChart powA (frameOf t) := by
  unfold parseFlightCsv at h
  by_cases h1 : blankHeader t.header = true
  · rw [if_pos h1] at h; exact Except.noConfusion h
  rw [if_neg h1] at h
  by_cases h2 : fitsHeader t = true
  · rw [h2] at h
    simp only [Bool.not_true, Bool.false_eq_true, if_false] at h
    by_cases h3 : missingOf t = ∅
    · rw [if_neg (by simp [h3])] at h
      by_cases h5 : requiredUnique (frameOf t) = true
      · rw [h5] at h
        simp only [Bool.not_true, Bool.false_eq_true, if_false] at h
        by_cases h4 : requiredNumeric (frameOf t) = true
        · rw [h4] at h
          simp only [Bool.not_true, Bool.false_eq_true, if_false] at h
          exact ⟨Bool.not_eq_true _ ▸ (Bool.eq_false_iff.mpr (fun hc => h1 hc)),
            h2, h3, h5, h4, (Except.ok.injEq _ _ ▸ h).symm ▸ rfl⟩
        · rw [Bool.not_eq_true] at h4
          rw [h4] at h
          simp only [Bool.not_false, if_true] at h
          exact Except.noConfusion h
      · rw [Bool.not_eq_true] at h5
        rw [h5] at h
        simp only [Bool.not_false, if_true] at h
        exact Except.noConfusion h
    · rw [if_pos h3] at h
      exact Except.noConfusion h
  · rw [Bool.not_eq_true] at h2
    rw [h2] at h
    simp only [Bool.not_false, if_true] at h
    exact Except.noConfusion h

theorem sanitize_not_nan (v : Value) : (sanitize v).isNaN = false := by
  cases v <;> simp [sanitize, round4, Value.isNaN]

theorem sanitize_nan : sanitize Value.nan = Value.finite 0 := rfl

theorem sanitize_inf : sanitize Value.inf = Value.inf := rfl

theorem sanitize_neginf : sanitize Value.neginf = Value.neginf := rfl

theorem sanitize_finite (q : ℚ) :
    sanitize (Value.finite q) =
      Value.finite ((roundHalfEven (q * 10000) : ℚ) / 10000) := rfl

theorem to_list_length (l : List Value) : (to_list l).length = l.length :=
  List.length_map _ _

theorem colVals_length (f : Frame) (nm : String) :
    (colVals f nm).length = f.rows.length :=
  List.length_map _ _

theorem computeChart_time (powA : ℚ → ℚ → ℚ) (f : Frame) :
    (computeChart powA f).time = to_list (colVals f timeCol) := rfl

theorem computeChart_altitude (powA : ℚ → ℚ → ℚ) (f : Frame) :
    (computeChart powA f).altitude =
      to_list ((colVals f "Kpa").map
        (altFormula powA (seriesMean ((colVals f "Kpa").take 10)))) := rfl

theorem computeChart_net (powA : ℚ → ℚ → ℚ) (f : Frame) :
    (computeChart powA f).net_accel =
      to_list (f.rows.map (fun r =>
        netOf powA (cellVal f "x" r) (cellVal f "y" r) (cellVal f "z" r))) :=
  rfl

theorem computeChart_x (powA : ℚ → ℚ → ℚ) (f : Frame) :
    (computeChart powA f).x = to_list (colVals f "x") := rfl

theorem computeChart_y (powA : ℚ → ℚ → ℚ) (f : Frame) :
    (computeChart powA f).y = to_list (colVals f "y") := rfl

theorem computeChart_z (powA : ℚ → ℚ → ℚ) (f : Frame) :
    (computeChart powA f).z = to_list (colVals f "z") := rfl

theorem computeChart_temp (powA : ℚ → ℚ → ℚ) (f : Frame) :
    (computeChart powA f).temp = to_list (colVals f "F") := rfl

/-- Counterexample to C2 as stated: an input whose header lacks the z
column but whose second data row is wider than the header fails in
pd.read_csv with the parser error, before the missing-columns validation
ever runs - so the validation error is not produced regardless of row count
and other data. -/
theorem claim_C2_counterexample :
    missingOf tblRaggedMissing ≠ ∅ ∧
      parseFlightCsv powId tblRaggedMissing = .error .ragged :=
  ⟨by decide, rfl⟩

/-- C2 (amended): for every input the CSV reader accepts (non-blank header,
no data row wider than the header) whose parsed, whitespace-stripped header
lacks at least one of the six required column names, the transform fails
with the validation error carrying exactly the set of missing names as they
appear in RequiredColumns (the Python message is the fixed text
"CSV missing columns: " followed by the display of this set), regardless of
the row data, and produces no chart series; an input the reader rejects
(e.g. a row wider than the header) fails with the reader's error before
validation. -/
theorem claim_C2_missing_columns (powA : ℚ → ℚ → ℚ) (t : RawTable)
    (hb : blankHeader t.header = false) (hf : fitsHeader t = true)
    (hne : requiredCols.filter (fun c => c ∉ t.header.map stripName) ≠ ∅) :
    parseFlightCsv powA t =
      .error (.missingColumns
        (requiredCols.filter (fun c => c ∉ t.header.map stripName))) := by
  have hm : missingOf t =
      requiredCols.filter (fun c => c ∉ t.header.map stripName) := rfl
  unfold parseFlightCsv
  rw [if_neg (by simp [hb]), if_neg (by simp [hf]),
    if_pos (by rw [hm]; exact hne), hm]

/-- Witness for C2 at a concrete header lacking the z column. -/
theorem claim_C2_witness :
    blankHeader tblMissingZ.header = false ∧ fitsHeader tblMissingZ = true ∧
      requiredCols.filter
        (fun c => c ∉ tblMissingZ.header.map stripName) ≠ ∅ ∧
      parseFlightCsv powId tblMissingZ =
        .error (.missingColumns (requiredCols.filter
          (fun c => c ∉ tblMissingZ.header.map stripName))) :=
  ⟨rfl, rfl, by decide,
    claim_C2_missing_columns powId tblMissingZ rfl rfl (by decide)⟩

theorem to_list_not_nan (l : List Value) :
    ∀ v ∈ to_list l, v.isNaN = false := by
  intro v hv
  obtain ⟨u, -, rfl⟩ := List.mem_map.mp hv
  exact sanitize_not_nan u

/-- Counterexample to C1 as stated: on an input whose first Kpa values are
-1 and 1 the baseline pressure is 0, the barometric formula produces
-Infinity, the sanitization step passes it through (it replaces only NaN),
and the transform succeeds with a non-finite value in the altitude
sequence. -/
theorem claim_C1_counterexample :
    ∃ out, parseFlightCsv powId tblInfAlt = .ok out ∧
      ¬ (∀ l ∈ out.allLists, ∀ v ∈ l, v.isFinite = true) := by
  refine ⟨computeChart powId (frameOf tblInfAlt), rfl, fun hall => ?_⟩
  have hkpa : colVals (frameOf tblInfAlt) "Kpa" =
      [Value.finite (-1), Value.finite 1] := rfl
  have hbase : seriesMean [Value.finite (-1), Value.finite 1] =
      Value.finite 0 := by
    norm_num [seriesMean, Value.isNaN, Value.add, Value.div, List.foldl,
      List.filter]
  have halt1 : altFormula powId (Value.finite 0) (Value.finite (-1)) =
      Value.neginf := by
    norm_num [altFormula, Value.div, Value.fracPow, Value.sub, Value.add,
      Value.neg, Value.mul]
  have hneg : Value.neginf ∈ (computeChart powId (frameOf tblInfAlt)).altitude := by
    rw [computeChart_altitude, hkpa]
    simp only [List.take, to_list, List.map, hbase, halt1, sanitize_neginf]
    exact List.mem_cons_self _ _
  have := hall (computeChart powId (frameOf tblInfAlt)).altitude
    (by simp [ChartData.allLists]) Value.neginf hneg
  simp [Value.isFinite] at this

/-- C1 (amended): for every input on which the transform succeeds, no value
in any of the seven output sequences is NaN (the sanitization step replaces
every NaN with 0.0) - but the values need not be finite, since infinities
pass through the sanitization step unchanged. -/
theorem claim_C1_no_nan (powA : ℚ → ℚ → ℚ) (t : RawTable) (out : ChartData)
    (h : parseFlightCsv powA t = .ok out) :
    ∀ l ∈ out.allLists, ∀ v ∈ l, v.isNaN = false := by
  obtain ⟨-, -, -, -, -, hout⟩ := parse_ok_inv powA t out h
  subst hout
  intro l hl
  simp only [ChartData.allLists, List.mem_cons, List.not_mem_nil,
    or_false] at hl
  rcases hl with rfl | rfl | rfl | rfl | rfl | rfl | rfl <;>
    exact to_list_not_nan _

/-- Witness for C1 at a concrete valid input: the first altitude entry is
not NaN. -/
theorem claim_C1_witness :
    ((computeChart powId (frameOf tblPlain)).altitude.getD 0
      Value.nan).isNaN = false := by
  have hlen : 0 < (computeChart powId (frameOf tblPlain)).altitude.length := by
    simp [computeChart_altitude, to_list_length, List.length_map,
      colVals_length, frameOf, dataRows, tblPlain, blankRow]
  rw [List.getD_eq_getElem?_getD, List.getElem?_eq_getElem hlen]
  exact claim_C1_no_nan powId tblPlain _ rfl _
    (by simp [ChartData.allLists]) _ (List.getElem_mem hlen)

theorem alt_baseline_zero (powA : ℚ → ℚ → ℚ) (k : Value) :
    sanitize (altFormula powA (Value.finite 0) k) =
      if k = Value.finite 0 ∨ k.isNaN = true then Value.finite 0
      else Value.neginf := by
  cases k with
  | nan =>
      simp [altFormula, Value.div, Value.fracPow, Value.sub, Value.add,
        Value.neg, Value.mul, sanitize, Value.isNaN, round4]
  | inf =>
      rw [if_neg (by decide)]
      norm_num [altFormula, Value.div, Value.fracPow, Value.sub, Value.add,
        Value.neg, Value.mul, sanitize, Value.isNaN, round4]
  | neginf =>
      rw [if_neg (by decide)]
      norm_num [altFormula, Value.div, Value.fracPow, Value.sub, Value.add,
        Value.neg, Value.mul, sanitize, Value.isNaN, round4]
  | finite a =>
      rcases lt_trichotomy a 0 with ha | ha | ha
      · rw [if_neg (by simp [Value.isNaN, ne_of_lt ha])]
        norm_num [altFormula, Value.div, Value.fracPow, Value.sub, Value.add,
          Value.neg, Value.mul, sanitize, Value.isNaN, round4, ha,
          not_lt_of_lt ha, ne_of_lt ha]
      · subst ha
        norm_num [altFormula, Value.div, Value.fracPow, Value.sub, Value.add,
          Value.neg, Value.mul, sanitize, Value.isNaN, round4]
      · rw [if_neg (by simp [Value.isNaN, (ne_of_lt ha).symm])]
        norm_num [altFormula, Value.div, Value.fracPow, Value.sub, Value.add,
          Value.neg, Value.mul, sanitize, Value.isNaN, round4, ha,
          not_lt_of_lt ha, (ne_of_lt ha).symm]

/-- Counterexample to C3 as stated: on an input that passes validation and
whose baseline pressure is 0 (Kpa values -2 and 2), the emitted altitude
sequence contains -Infinity - not 0.0 and not otherwise finite - because the
sanitization step maps only NaN to 0.0 and passes infinities through. -/
theorem claim_C3_counterexample :
    ∃ out, parseFlightCsv powId tblZeroBase = .ok out ∧
      seriesMean ((colVals (frameOf tblZeroBase) "Kpa").take 10) =
        Value.finite 0 ∧
      Value.neginf ∈ out.altitude := by
  refine ⟨computeChart powId (frameOf tblZeroBase), rfl, ?_, ?_⟩
  · have hkpa : colVals (frameOf tblZeroBase) "Kpa" =
        [Value.finite (-2), Value.finite 2] := rfl
    rw [hkpa]
    norm_num [seriesMean, Value.isNaN, Value.add, Value.div, List.foldl,
      List.filter]
  · have hkpa : colVals (frameOf tblZeroBase) "Kpa" =
        [Value.finite (-2), Value.finite 2] := rfl
    have hbase : seriesMean [Value.finite (-2), Value.finite 2] =
        Value.finite 0 := by
      norm_num [seriesMean, Value.isNaN, Value.add, Value.div, List.foldl,
        List.filter]
    have halt : altFormula powId (Value.finite 0) (Value.finite (-2)) =
        Value.neginf := by
      norm_num [altFormula, Value.div, Value.fracPow, Value.sub, Value.add,
        Value.neg, Value.mul]
    rw [computeChart_altitude, hkpa]
    simp only [List.take, to_list, List.map, hbase, halt, sanitize_neginf]
    exact List.mem_cons_self _ _

/-- C3 (amended): for every input on which the transform succeeds and whose
baseline pressure is 0, a row's emitted altitude is 0.0 exactly when its
Kpa value is 0 or missing (the formula then yields NaN, which sanitization
maps to 0.0); every other row's emitted altitude is -Infinity, which
sanitization does not replace. -/
theorem claim_C3_zero_baseline (powA : ℚ → ℚ → ℚ) (t : RawTable)
    (out : ChartData) (h : parseFlightCsv powA t = .ok out)
    (hb : seriesMean ((colVals (frameOf t) "Kpa").take 10) =
      Value.finite 0) :
    out.altitude = (colVals (frameOf t) "Kpa").map (fun k =>
      if k = Value.finite 0 ∨ k.isNaN = true then Value.finite 0
      else Value.neginf) := by
  obtain ⟨-, -, -, -, -, rfl⟩ := parse_ok_inv powA t out h
  rw [computeChart_altitude, hb, to_list, List.map_map]
  exact List.map_congr_left (fun k _ => alt_baseline_zero powA k)

/-- Witness for C3 at a concrete input whose single Kpa value is 0. -/
theorem claim_C3_witness :
    seriesMean ((colVals (frameOf tblZeroKpa) "Kpa").take 10) =
        Value.finite 0 ∧
      (computeChart powId (frameOf tblZeroKpa)).altitude =
        (colVals (frameOf tblZeroKpa) "Kpa").map (fun k =>
          if k = Value.finite 0 ∨ k.isNaN = true then Value.finite 0
          else Value.neginf) := by
  have hb : seriesMean ((colVals (frameOf tblZeroKpa) "Kpa").take 10) =
      Value.finite 0 := by
    have hkpa : colVals (frameOf tblZeroKpa) "Kpa" = [Value.finite 0] := rfl
    rw [hkpa]
    norm_num [seriesMean, Value.isNaN, Value.add, Value.div, List.foldl,
      List.filter]
  exact ⟨hb, claim_C3_zero_baseline powId tblZeroKpa _ rfl hb⟩

theorem to_list_getD (l : List Value) (j : ℕ) (hj : j < l.length) :
    (to_list l).getD j Value.nan = sanitize (l.getD j Value.nan) := by
  rw [to_list, List.getD_eq_getElem?_getD, List.getD_eq_getElem?_getD,
    List.getElem?_map, List.getElem?_eq_getElem hj]
  rfl

/-- C7: for every input on which the transform succeeds, each of the seven
output sequences has length equal to the number of data rows of the input,
and each raw channel is the index-aligned image of its input column under
the sanitize step (the derived channels are index-aligned maps over the
same rows; see the altitude and net-acceleration claims). -/
theorem claim_C7_lengths (powA : ℚ → ℚ → ℚ) (t : RawTable) (out : ChartData)
    (h : parseFlightCsv powA t = .ok out) :
    (∀ l ∈ out.allLists, l.length = dataRowCount t) ∧
      out.time = (colVals (frameOf t) timeCol).map sanitize ∧
      out.x = (colVals (frameOf t) "x").map sanitize ∧
      out.y = (colVals (frameOf t) "y").map sanitize ∧
      out.z = (colVals (frameOf t) "z").map sanitize ∧
      out.temp = (colVals (frameOf t) "F").map sanitize := by
  obtain ⟨-, -, -, -, -, rfl⟩ := parse_ok_inv powA t out h
  have hr : (frameOf t).rows.length = dataRowCount t := by
    simp [frameOf, dataRowCount]
  refine ⟨?_, rfl, rfl, rfl, rfl, rfl⟩
  intro l hl
  simp only [ChartData.allLists, List.mem_cons, List.not_mem_nil,
    or_false] at hl
  rcases hl with rfl | rfl | rfl | rfl | rfl | rfl | rfl <;>
    simp [computeChart_time, computeChart_altitude, computeChart_net,
      computeChart_x, computeChart_y, computeChart_z, computeChart_temp,
      to_list_length, colVals_length, hr]

/-- Witness for C7 at a concrete two-row input: the time sequence has the
row count as its length. -/
theorem claim_C7_witness :
    (computeChart powId (frameOf tblTwoRows)).time.length =
      dataRowCount tblTwoRows :=
  (claim_C7_lengths powId tblTwoRows _ rfl).1 _ (by simp [ChartData.allLists])

theorem sanitize_cases (u : Value) :
    sanitize u = Value.finite 0 ∨
      (u.isNaN = false ∧ sanitize u = round4 u) := by
  cases u <;> simp [sanitize, Value.isNaN]

/-- C8: for every input on which the transform succeeds, every emitted
value is either the NaN replacement 0.0 or the underlying series value
rounded to 4 decimal places; the raw channels go through the same
sanitize-and-round step, and a raw x cell holding 3.14159265 is emitted as
3.1416. -/
theorem claim_C8_rounding (powA : ℚ → ℚ → ℚ) (t : RawTable) (out : ChartData)
    (h : parseFlightCsv powA t = .ok out) :
    (∀ l ∈ out.allLists, ∀ v ∈ l,
      v = Value.finite 0 ∨ ∃ u, u.isNaN = false ∧ v = round4 u) ∧
    (∀ j, j < out.x.length →
      (colVals (frameOf t) "x").getD j Value.nan =
        Value.finite (314159265 / 100000000) →
      out.x.getD j Value.nan = Value.finite (3927 / 1250)) := by
  obtain ⟨-, -, -, -, -, rfl⟩ := parse_ok_inv powA t out h
  constructor
  · intro l hl v hv
    simp only [ChartData.allLists, List.mem_cons, List.not_mem_nil,
      or_false] at hl
    have hcase : ∀ s : List Value, v ∈ to_list s →
        v = Value.finite 0 ∨ ∃ u, u.isNaN = false ∧ v = round4 u := by
      intro s hs
      obtain ⟨u, -, rfl⟩ := List.mem_map.mp hs
      rcases sanitize_cases u with h0 | ⟨hn, hr⟩
      · exact Or.inl h0
      · exact Or.inr ⟨u, hn, hr⟩
    rcases hl with rfl | rfl | rfl | rfl | rfl | rfl | rfl <;>
      exact hcase _ hv
  · intro j hj hx
    have hjl : j < (colVals (frameOf t) "x").length := by
      rw [computeChart_x, to_list_length] at hj
      exact hj
    rw [computeChart_x, to_list_getD _ j hjl, hx]
    rw [sanitize_finite]
    norm_num [roundHalfEven]

/-- Witness for C8: the concrete input holding 3.14159265 in its x column
emits 3.1416 at index 0 of the x sequence. -/
theorem claim_C8_witness :
    (computeChart powId (frameOf tblPi)).x.getD 0 Value.nan =
      Value.finite (3927 / 1250) := by
  refine (claim_C8_rounding powId tblPi _ rfl).2 0 ?_ rfl
  simp [computeChart_x, to_list_length, colVals_length, frameOf, dataRows,
    tblPi, blankRow]

theorem foldl_add_finite (qs : List ℚ) (a : ℚ) :
    (qs.map Value.finite).foldl Value.add (Value.finite a) =
      Value.finite (a + qs.sum) := by
  induction qs generalizing a with
  | nil => simp
  | cons q rest ih =>
      simp only [List.map_cons, List.foldl_cons, Value.add, List.sum_cons, ih]
      ring_nf

theorem seriesMean_finite (qs : List ℚ) (hne : qs ≠ []) :
    seriesMean (qs.map Value.finite) = Value.finite (specArithmeticMean qs) := by
  have hfilter : (qs.map Value.finite).filter (fun v => !v.isNaN) =
      qs.map Value.finite := by
    rw [List.filter_eq_self]
    intro v hv
    obtain ⟨u, -, rfl⟩ := List.mem_map.mp hv
    simp [Value.isNaN]
  unfold seriesMean
  rw [hfilter, if_neg (by simp [hne]), foldl_add_finite, List.length_map]
  have hlen : ((qs.length : ℚ)) ≠ 0 := by
    simp [hne]
  simp [Value.div, hlen, specArithmeticMean]

theorem alt_at_baseline (powA : ℚ → ℚ → ℚ) (c : ℚ) (hc : c ≠ 0) :
    sanitize (altFormula powA (Value.finite c) (Value.finite c)) =
      Value.finite 0 := by
  have hdiv : (Value.finite c).div (Value.finite c) = Value.finite 1 := by
    simp [Value.div, hc]
  rw [altFormula, hdiv]
  norm_num [Value.fracPow, Value.sub, Value.add, Value.neg, Value.mul,
    sanitize, Value.isNaN, round4, roundHalfEven]

/-- C5: for every input on which the transform succeeds, the altitude
sequence is exactly the barometric formula
44330 * (1 - (kpa / baseline) ** 0.1903) * 3.281 applied rowwise to the Kpa
column with the baseline taken over the first min(10, n) rows, then
sanitized and rounded; when those first Kpa values are all plain numbers the
baseline is their arithmetic mean (the source skips NaN entries, which
coincides with the spec when none is missing); and a row whose Kpa equals a
baseline of 101.325 emits altitude 0.0. -/
theorem claim_C5_altitude (powA : ℚ → ℚ → ℚ) (t : RawTable) (out : ChartData)
    (h : parseFlightCsv powA t = .ok out) :
    out.altitude = ((colVals (frameOf t) "Kpa").map
        (altFormula powA
          (seriesMean ((colVals (frameOf t) "Kpa").take 10)))).map
        sanitize ∧
    (∀ qs : List ℚ,
      (colVals (frameOf t) "Kpa").take 10 = qs.map Value.finite → qs ≠ [] →
      seriesMean ((colVals (frameOf t) "Kpa").take 10) =
        Value.finite (specArithmeticMean qs)) ∧
    (∀ j, j < out.altitude.length →
      seriesMean ((colVals (frameOf t) "Kpa").take 10) =
        Value.finite (4053 / 40) →
      (colVals (frameOf t) "Kpa").getD j Value.nan =
        Value.finite (4053 / 40) →
      out.altitude.getD j Value.nan = Value.finite 0) := by
  obtain ⟨-, -, -, -, -, rfl⟩ := parse_ok_inv powA t out h
  refine ⟨rfl, ?_, ?_⟩
  · intro qs hqs hne
    rw [hqs]
    exact seriesMean_finite qs hne
  · intro j hj hbase hk
    have hjl : j < ((colVals (frameOf t) "Kpa").map
        (altFormula powA
          (seriesMean ((colVals (frameOf t) "Kpa").take 10)))).length := by
      rw [computeChart_altitude, to_list_length] at hj
      exact hj
    have hjk : j < (colVals (frameOf t) "Kpa").length := by
      rw [List.length_map] at hjl
      exact hjl
    have hkj : (colVals (frameOf t) "Kpa")[j] = Value.finite (4053 / 40) := by
      rw [List.getD_eq_getElem?_getD, List.getElem?_eq_getElem hjk] at hk
      simpa using hk
    rw [computeChart_altitude, to_list_getD _ j hjl,
      List.getD_eq_getElem?_getD, List.getElem?_map,
      List.getElem?_eq_getElem hjk, hkj, hbase]
    exact alt_at_baseline powA (4053 / 40) (by norm_num)

/-- Witness for C5 at the concrete sea-level input: one row with
Kpa = 101.325, whose emitted altitude is 0.0. -/
theorem claim_C5_witness :
    (computeChart powId (frameOf tblSeaLevel)).altitude.getD 0 Value.nan =
      Value.finite 0 := by
  have hparts := claim_C5_altitude powId tblSeaLevel _ rfl
  have hbase : seriesMean ((colVals (frameOf tblSeaLevel) "Kpa").take 10) =
      Value.finite (4053 / 40) := by
    have h2 := hparts.2.1 [4053 / 40] rfl (by simp)
    rw [h2]
    norm_num [specArithmeticMean]
  refine hparts.2.2 0 ?_ hbase rfl
  simp [computeChart_altitude, to_list_length, List.length_map,
    colVals_length, frameOf, dataRows, tblSeaLevel, blankRow]

theorem net_at_rest (powA : ℚ → ℚ → ℚ) :
    sanitize (netOf powA (Value.finite 0) (Value.finite 0)
      (Value.finite 1)) = Value.finite 0 := by
  norm_num [netOf, magOf, Value.sq, Value.add, Value.fracPow, Value.sub,
    Value.neg, sanitize, Value.isNaN, round4, roundHalfEven]

/-- C6: for every input on which the transform succeeds, the net
acceleration sequence is exactly sqrt(x^2 + y^2 + z^2) - 1.0 applied
rowwise, then sanitized and rounded; a resting row x=0, y=0, z=1 emits net
acceleration 0.0. -/
theorem claim_C6_net_accel (powA : ℚ → ℚ → ℚ) (t : RawTable)
    (out : ChartData) (h : parseFlightCsv powA t = .ok out) :
    out.net_accel = ((frameOf t).rows.map (fun r =>
        netOf powA (cellVal (frameOf t) "x" r) (cellVal (frameOf t) "y" r)
          (cellVal (frameOf t) "z" r))).map sanitize ∧
    (∀ j, j < out.net_accel.length →
      cellVal (frameOf t) "x" ((frameOf t).rows.getD j []) =
        Value.finite 0 →
      cellVal (frameOf t) "y" ((frameOf t).rows.getD j []) =
        Value.finite 0 →
      cellVal (frameOf t) "z" ((frameOf t).rows.getD j []) =
        Value.finite 1 →
      out.net_accel.getD j Value.nan = Value.finite 0) := by
  obtain ⟨-, -, -, -, -, rfl⟩ := parse_ok_inv powA t out h
  refine ⟨rfl, ?_⟩
  intro j hj hx hy hz
  have hjl : j < ((frameOf t).rows.map (fun r =>
      netOf powA (cellVal (frameOf t) "x" r) (cellVal (frameOf t) "y" r)
        (cellVal (frameOf t) "z" r))).length := by
    rw [computeChart_net, to_list_length] at hj
    exact hj
  have hjr : j < (frameOf t).rows.length := by
    rw [List.length_map] at hjl
    exact hjl
  have hrow : (frameOf t).rows.getD j [] = (frameOf t).rows[j] := by
    rw [List.getD_eq_getElem?_getD, List.getElem?_eq_getElem hjr]
    rfl
  rw [hrow] at hx hy hz
  rw [computeChart_net, to_list_getD _ j hjl,
    List.getD_eq_getElem?_getD, List.getElem?_map,
    List.getElem?_eq_getElem hjr]
  show sanitize (netOf powA (cellVal (frameOf t) "x" ((frameOf t).rows[j]))
    (cellVal (frameOf t) "y" ((frameOf t).rows[j]))
    (cellVal (frameOf t) "z" ((frameOf t).rows[j]))) = Value.finite 0
  rw [hx, hy, hz]
  exact net_at_rest powA

/-- Witness for C6 at the concrete resting input x=0, y=0, z=1. -/
theorem claim_C6_witness :
    (computeChart powId (frameOf tblAtRest)).net_accel.getD 0 Value.nan =
      Value.finite 0 := by
  refine (claim_C6_net_accel powId tblAtRest _ rfl).2 0 ?_ rfl rfl rfl
  simp [computeChart_net, to_list_length, frameOf, dataRows, tblAtRest,
    blankRow]

theorem sq_nonnegClass (v : Value) : v.sq.nonnegClass := by
  cases v with
  | finite q => exact mul_self_nonneg q
  | nan => trivial
  | inf => trivial
  | neginf => trivial

theorem add_nonnegClass (v w : Value) (hv : v.nonnegClass)
    (hw : w.nonnegClass) : (v.add w).nonnegClass := by
  cases v <;> cases w <;>
    first
      | exact add_nonneg hv hw
      | simp_all [Value.add, Value.nonnegClass]

theorem fracPow_nonnegClass (powA : ℚ → ℚ → ℚ)
    (hpos : ∀ e b : ℚ, 0 < b → 0 ≤ powA e b) (e : ℚ) (v : Value)
    (hv : v.nonnegClass) : (Value.fracPow powA e v).nonnegClass := by
  cases v with
  | nan => simp [Value.fracPow, Value.nonnegClass]
  | inf => simp [Value.fracPow, Value.nonnegClass]
  | neginf => simp [Value.fracPow, Value.nonnegClass]
  | finite b =>
      simp only [Value.nonnegClass] at hv
      by_cases hb0 : b = 0
      · simp [Value.fracPow, hb0, Value.nonnegClass]
      · by_cases hb1 : b = 1
        · simp [Value.fracPow, hb0, hb1, Value.nonnegClass]
        · have hbpos : 0 < b := lt_of_le_of_ne hv (Ne.symm hb0)
          simp [Value.fracPow, hb0, hb1, not_lt_of_lt hbpos,
            Value.nonnegClass]
          exact hpos e b hbpos

theorem magOf_nonnegClass (powA : ℚ → ℚ → ℚ)
    (hpos : ∀ e b : ℚ, 0 < b → 0 ≤ powA e b) (x y z : Value) :
    (magOf powA x y z).nonnegClass :=
  fracPow_nonnegClass powA hpos _ _
    (add_nonnegClass _ _
      (add_nonnegClass _ _ (sq_nonnegClass x) (sq_nonnegClass y))
      (sq_nonnegClass z))

theorem roundHalfEven_ge (q : ℚ) (n : ℤ) (hq : (n : ℚ) ≤ q) :
    n ≤ roundHalfEven q := by
  have hfl : n ≤ ⌊q⌋ := Int.le_floor.mpr hq
  unfold roundHalfEven
  dsimp only
  split_ifs <;> omega

theorem net_sanitize_bound (m : Value) (hm : m.nonnegClass) :
    (sanitize (m.sub (Value.finite 1))).geNegOne = true := by
  cases m with
  | nan =>
      simp [Value.sub, Value.add, Value.neg, sanitize, Value.isNaN,
        Value.geNegOne]
  | inf =>
      simp [Value.sub, Value.add, Value.neg, sanitize, Value.isNaN, round4,
        Value.geNegOne]
  | neginf => exact absurd hm (by simp [Value.nonnegClass])
  | finite q =>
      simp only [Value.nonnegClass] at hm
      have hsub : (Value.finite q).sub (Value.finite 1) =
          Value.finite (q - 1) := by
        simp [Value.sub, Value.add, Value.neg]
        ring
      rw [hsub, sanitize_finite]
      have hr : (-10000 : ℤ) ≤ roundHalfEven ((q - 1) * 10000) := by
        apply roundHalfEven_ge
        push_cast
        linarith
      simp only [Value.geNegOne, decide_eq_true_eq]
      rw [le_div_iff₀ (by norm_num : (0 : ℚ) < 10000)]
      calc ((-1 : ℚ)) * 10000 = ((-10000 : ℤ) : ℚ) := by norm_num
        _ ≤ ((roundHalfEven ((q - 1) * 10000) : ℤ) : ℚ) :=
            Int.cast_le.mpr hr

/-- C10: for every input on which the transform succeeds, every entry of
the net acceleration sequence is at least -1.0 (NaN never appears, and
-Infinity cannot arise from the square-root chain): the squared magnitude
is a nonnegative finite number, NaN or +Infinity, its square root likewise
(the hypothesis states the nonnegativity of the abstract positive-base
power, true of IEEE pow), so magnitude minus 1 is bounded below by -1, and
the NaN-to-0.0 substitution and the rounding both preserve the bound. The
spec never states this bound. -/
theorem claim_C10_net_lower_bound (powA : ℚ → ℚ → ℚ)
    (hpos : ∀ e b : ℚ, 0 < b → 0 ≤ powA e b) (t : RawTable)
    (out : ChartData) (h : parseFlightCsv powA t = .ok out) :
    ∀ v ∈ out.net_accel, v.geNegOne = true := by
  obtain ⟨-, -, -, -, -, rfl⟩ := parse_ok_inv powA t out h
  intro v hv
  rw [computeChart_net, to_list] at hv
  obtain ⟨w, hw, rfl⟩ := List.mem_map.mp hv
  obtain ⟨r, -, rfl⟩ := List.mem_map.mp hw
  exact net_sanitize_bound _ (magOf_nonnegClass powA hpos _ _ _)

/-- Witness for C10 at a concrete one-row input, with the identity
approximation for the positive-base power (which is nonnegative on positive
bases). -/
theorem claim_C10_witness :
    ((computeChart powId (frameOf tblBound)).net_accel.getD 0
      Value.nan).geNegOne = true := by
  have hlen : 0 < (computeChart powId (frameOf tblBound)).net_accel.length := by
    simp [computeChart_net, to_list_length, frameOf, dataRows, tblBound,
      blankRow]
  rw [List.getD_eq_getElem?_getD, List.getElem?_eq_getElem hlen]
  exact claim_C10_net_lower_bound powId (fun e b hb => le_of_lt hb)
    tblBound _ rfl _ (List.getElem_mem hlen)

end MiniDriver
